import Mathlib

/-!
Verification of the firewise-agents repository core against its
natural-language specification.

The development shallowly embeds the deterministic parts of the code:

* `calculate_debt_payoff` — src/tools/debt_calc.py (closed-form amortization),
  over real numbers; Python `math.log` failures are modelled by an explicit
  guard, and Python `round(x, 2)` by the idealized `round2`.
* `extract_json_from_response` — src/agents/import_agent.py and
  src/agents/runway_agent.py, with the external JSON parser (`json.loads`)
  abstracted as a parameter and the two `re` patterns modelled concretely
  on character lists.
* `extract_text_from_csv` — src/agents/import_agent.py, with the external
  pandas parser and byte decoding abstracted as outcome-valued parameters.
* `analyze_import` — src/agents/import_agent.py, from the point where the
  document text is available; the LLM call plus JSON recovery plus schema
  validation step is abstracted as an `Except`-valued parameter.
* `get_inflation_rate` — src/tools/inflation.py.
* `runwaySimulator` — the year-by-year depletion loop; this has no
  deterministic implementation in the repository (the prompt delegates the
  arithmetic to the model), so it is modelled from the specification.
-/

/-! ## Debt payoff calculator (src/tools/debt_calc.py) -/

/-- Idealized model of Python `round(x, 2)` (round to 2 decimal places;
the tie-breaking convention is immaterial to the statements below, which
only use a half-cent tolerance). -/
noncomputable def round2 (x : ℝ) : ℝ := (⌈x * 100 - 1/2⌉ : ℤ) / 100

/-- Idealized model of Python `round(x, 1)`. -/
noncomputable def round1 (x : ℝ) : ℝ := (⌈x * 10 - 1/2⌉ : ℤ) / 10

/-- The shapes of the dict returned by `calculate_debt_payoff`, one
constructor per `return` statement of the Python function:

* `already_paid`: `balance <= 0` (months 0, interest 0, year 2025);
* `invalid_payment`: `monthly_payment <= 0` (error, months −1);
* `zero_interest`: the `monthly_rate <= 0` branch, with fields
  months_remaining, total_interest (always 0), payoff_year, payoff_month
  (status "on_track");
* `underwater`: payment does not cover interest, with fields
  monthly_interest, monthly_payment, shortfall, months_remaining (−1);
* `calc_error`: the `except (ValueError, ZeroDivisionError)` branch;
* `on_track`: the standard amortization result with fields
  months_remaining, years_remaining, total_interest, total_paid,
  payoff_year, payoff_month. -/
inductive PayoffResult where
  | already_paid : PayoffResult
  | invalid_payment : PayoffResult
  | zero_interest (months_remaining : ℤ) (total_interest : ℝ)
      (payoff_year payoff_month : ℤ) : PayoffResult
  | underwater (monthly_interest monthly_payment shortfall : ℝ)
      (months_remaining : ℤ) : PayoffResult
  | calc_error : PayoffResult
  | on_track (months_remaining : ℤ) (years_remaining total_interest total_paid : ℝ)
      (payoff_year payoff_month : ℤ) : PayoffResult

/-- Embedding of `calculate_debt_payoff(balance, annual_rate, monthly_payment)`
from src/tools/debt_calc.py.  Python's `math.log` raising `ValueError` on a
non-positive argument (and `ZeroDivisionError` on a zero denominator) is
modelled by the explicit guard feeding `calc_error`; `//` and `%` on Python
ints are floor division and floor modulus, hence `Int.fdiv` / `Int.fmod`. -/
noncomputable def calculate_debt_payoff (balance annual_rate monthly_payment : ℝ) :
    PayoffResult :=
  if balance ≤ 0 then .already_paid
  else if monthly_payment ≤ 0 then .invalid_payment
  else
    let monthly_rate := annual_rate / 12
    if monthly_rate ≤ 0 then
      let months := ⌈balance / monthly_payment⌉
      .zero_interest months 0 (2025 + Int.fdiv months 12) (Int.fmod months 12)
    else
      let monthly_interest := balance * monthly_rate
      if monthly_payment ≤ monthly_interest then
        .underwater (round2 monthly_interest) monthly_payment
          (round2 (monthly_interest - monthly_payment)) (-1)
      else if 1 - (monthly_rate * balance) / monthly_payment ≤ 0 ∨
          Real.log (1 + monthly_rate) = 0 then
        .calc_error
      else
        let months := ⌈-Real.log (1 - (monthly_rate * balance) / monthly_payment) /
          Real.log (1 + monthly_rate)⌉
        let total_paid := (months : ℝ) * monthly_payment
        let total_interest := total_paid - balance
        .on_track months (round1 ((months : ℝ) / 12)) (round2 total_interest)
          (round2 total_paid) (2025 + Int.fdiv months 12) (Int.fmod months 12)

theorem round2_close (x : ℝ) : |round2 x - x| ≤ 1 / 100 := by
  have h1 : x * 100 - 1/2 ≤ (⌈x * 100 - 1/2⌉ : ℝ) := Int.le_ceil _
  have h2 : (⌈x * 100 - 1/2⌉ : ℝ) < x * 100 - 1/2 + 1 := Int.ceil_lt_add_one _
  rw [round2, abs_le]
  constructor
  · linarith
  · linarith

/-- C1: past all the guards (positive balance, positive rate, payment above
the first month's interest), the calculator returns the closed-form
amortization result: `months = ⌈−ln(1 − r·B/M) / ln(1+r)⌉` with
`r = annual_rate/12`, `total_interest = months·M − B` up to the 2-decimal
rounding (within a cent), and the payoff date is the 2025 base year plus
`months` split into years and months. -/
theorem calculate_debt_payoff_amortization (balance annual_rate monthly_payment : ℝ)
    (hb : 0 < balance) (hr : 0 < annual_rate)
    (hm : balance * (annual_rate / 12) < monthly_payment) :
    calculate_debt_payoff balance annual_rate monthly_payment =
      PayoffResult.on_track
        ⌈-Real.log (1 - (annual_rate / 12 * balance) / monthly_payment) /
          Real.log (1 + annual_rate / 12)⌉
        (round1 ((⌈-Real.log (1 - (annual_rate / 12 * balance) / monthly_payment) /
          Real.log (1 + annual_rate / 12)⌉ : ℝ) / 12))
        (round2 ((⌈-Real.log (1 - (annual_rate / 12 * balance) / monthly_payment) /
          Real.log (1 + annual_rate / 12)⌉ : ℝ) * monthly_payment - balance))
        (round2 ((⌈-Real.log (1 - (annual_rate / 12 * balance) / monthly_payment) /
          Real.log (1 + annual_rate / 12)⌉ : ℝ) * monthly_payment))
        (2025 + Int.fdiv ⌈-Real.log (1 - (annual_rate / 12 * balance) / monthly_payment) /
          Real.log (1 + annual_rate / 12)⌉ 12)
        (Int.fmod ⌈-Real.log (1 - (annual_rate / 12 * balance) / monthly_payment) /
          Real.log (1 + annual_rate / 12)⌉ 12) ∧
      |round2 ((⌈-Real.log (1 - (annual_rate / 12 * balance) / monthly_payment) /
          Real.log (1 + annual_rate / 12)⌉ : ℝ) * monthly_payment - balance) -
        ((⌈-Real.log (1 - (annual_rate / 12 * balance) / monthly_payment) /
          Real.log (1 + annual_rate / 12)⌉ : ℝ) * monthly_payment - balance)| ≤ 1 / 100 := by
  have hrate : 0 < annual_rate / 12 := by positivity
  have hpos : 0 < monthly_payment := lt_trans (by positivity) hm
  have harg : 0 < 1 - (annual_rate / 12 * balance) / monthly_payment := by
    have hlt : annual_rate / 12 * balance < monthly_payment := by
      rw [mul_comm]; exact hm
    have := (div_lt_one hpos).mpr hlt
    linarith
  have hlog : 0 < Real.log (1 + annual_rate / 12) := Real.log_pos (by linarith)
  constructor
  · unfold calculate_debt_payoff
    rw [if_neg (not_le.mpr hb), if_neg (not_le.mpr hpos), if_neg (not_le.mpr hrate),
      if_neg (not_le.mpr hm), if_neg]
    push_neg
    exact ⟨by linarith, hlog.ne'⟩
  · exact round2_close _

theorem calculate_debt_payoff_amortization_witness :
    (0 : ℝ) < 100 ∧ (0 : ℝ) < 0.12 ∧ (100 : ℝ) * (0.12 / 12) < 50 ∧
    calculate_debt_payoff 100 0.12 50 =
      PayoffResult.on_track
        ⌈-Real.log (1 - (0.12 / 12 * 100) / 50) / Real.log (1 + 0.12 / 12)⌉
        (round1 ((⌈-Real.log (1 - (0.12 / 12 * 100) / 50) /
          Real.log (1 + 0.12 / 12)⌉ : ℝ) / 12))
        (round2 ((⌈-Real.log (1 - (0.12 / 12 * 100) / 50) /
          Real.log (1 + 0.12 / 12)⌉ : ℝ) * 50 - 100))
        (round2 ((⌈-Real.log (1 - (0.12 / 12 * 100) / 50) /
          Real.log (1 + 0.12 / 12)⌉ : ℝ) * 50))
        (2025 + Int.fdiv ⌈-Real.log (1 - (0.12 / 12 * 100) / 50) /
          Real.log (1 + 0.12 / 12)⌉ 12)
        (Int.fmod ⌈-Real.log (1 - (0.12 / 12 * 100) / 50) /
          Real.log (1 + 0.12 / 12)⌉ 12) :=
  ⟨by norm_num, by norm_num, by norm_num,
    (calculate_debt_payoff_amortization 100 0.12 50 (by norm_num) (by norm_num)
      (by norm_num)).1⟩

/-- C2: with a positive balance, positive payment and positive rate, if the
payment does not exceed the first month's interest `balance·(rate/12)`, the
calculator reports the underwater case: the shortfall field is
`balance·(rate/12) − payment` up to 2-decimal rounding (within a cent), and
`months_remaining` is the sentinel −1 instead of a valid month count. -/
theorem calculate_debt_payoff_underwater (balance annual_rate monthly_payment : ℝ)
    (hb : 0 < balance) (hm : 0 < monthly_payment) (hr : 0 < annual_rate)
    (h : monthly_payment ≤ balance * (annual_rate / 12)) :
    calculate_debt_payoff balance annual_rate monthly_payment =
      PayoffResult.underwater (round2 (balance * (annual_rate / 12))) monthly_payment
        (round2 (balance * (annual_rate / 12) - monthly_payment)) (-1) ∧
      |round2 (balance * (annual_rate / 12) - monthly_payment) -
        (balance * (annual_rate / 12) - monthly_payment)| ≤ 1 / 100 := by
  have hrate : 0 < annual_rate / 12 := by positivity
  constructor
  · unfold calculate_debt_payoff
    rw [if_neg (not_le.mpr hb), if_neg (not_le.mpr hm), if_neg (not_le.mpr hrate),
      if_pos h]
  · exact round2_close _

theorem calculate_debt_payoff_underwater_witness :
    (0 : ℝ) < 100000 ∧ (0 : ℝ) < 100 ∧ (0 : ℝ) < 0.20 ∧
    (100 : ℝ) ≤ 100000 * (0.20 / 12) ∧
    calculate_debt_payoff 100000 0.20 100 =
      PayoffResult.underwater (round2 (100000 * (0.20 / 12))) 100
        (round2 (100000 * (0.20 / 12) - 100)) (-1) :=
  ⟨by norm_num, by norm_num, by norm_num, by norm_num,
    (calculate_debt_payoff_underwater 100000 0.20 100 (by norm_num) (by norm_num)
      (by norm_num) (by norm_num)).1⟩

/-- C7: with a positive balance and payment, a non-positive monthly rate
takes the zero-interest branch: `months = ⌈balance/payment⌉`,
`total_interest = 0`, and the payoff date splits `months` over the 2025
base year. -/
theorem calculate_debt_payoff_zero_interest (balance annual_rate monthly_payment : ℝ)
    (hb : 0 < balance) (hm : 0 < monthly_payment) (hr : annual_rate / 12 ≤ 0) :
    calculate_debt_payoff balance annual_rate monthly_payment =
      PayoffResult.zero_interest ⌈balance / monthly_payment⌉ 0
        (2025 + Int.fdiv ⌈balance / monthly_payment⌉ 12)
        (Int.fmod ⌈balance / monthly_payment⌉ 12) := by
  unfold calculate_debt_payoff
  rw [if_neg (not_le.mpr hb), if_neg (not_le.mpr hm), if_pos hr]

theorem calculate_debt_payoff_zero_interest_witness :
    calculate_debt_payoff 10000 0 500 = PayoffResult.zero_interest 20 0 2026 8 := by
  have h := calculate_debt_payoff_zero_interest 10000 0 500 (by norm_num) (by norm_num)
    (by norm_num)
  have e : ⌈(10000 : ℝ) / 500⌉ = (20 : ℤ) := by
    rw [show (10000 : ℝ) / 500 = ((20 : ℤ) : ℝ) by norm_num, Int.ceil_intCast]
  rw [h, e]
  rfl

/-! ## JSON recovery (src/agents/import_agent.py and src/agents/runway_agent.py)

`extract_json_from_response` is defined, with character-identical bodies, in
both agent files.  The external `json.loads` is abstracted as a parameter
`J : List Char → Option D` (`none` models `json.JSONDecodeError`); the two
`re` patterns are modelled concretely on character lists:

* the pattern matching a fenced code block with an optional tag and an
  optional-whitespace prefix, whose lazy group is the interior up to the
  next closing fence (`findFenced`);
* the pattern greedily matching from the first opening brace to the last
  closing brace (`braceSpan`). -/

/-- The backtick character. -/
def btick : Char := Char.ofNat 96

/-- The opening-brace character. -/
def obrace : Char := Char.ofNat 123

/-- The closing-brace character. -/
def cbrace : Char := Char.ofNat 125

/-- Python regex whitespace class (ASCII part). -/
def pySpace (c : Char) : Bool :=
  c = ' ' || c = '\t' || c = '\n' || c = '\r' || c = Char.ofNat 11 || c = Char.ofNat 12

/-- Does the list start with a triple-backtick fence? -/
def fenceHere (l : List Char) : Bool := l.take 3 = [btick, btick, btick]

/-- Suffix after the leftmost triple-backtick fence, if any. -/
def splitAtFence : List Char → Option (List Char)
  | [] => none
  | c :: rest => if fenceHere (c :: rest) then some (rest.drop 2) else splitAtFence rest

/-- Characters before the leftmost triple-backtick fence, if any. -/
def takeUntilFence : List Char → Option (List Char)
  | [] => none
  | c :: rest =>
    if fenceHere (c :: rest) then some [] else (takeUntilFence rest).map (fun t => c :: t)

/-- The optional tag the fenced-block pattern may consume. -/
def jsonTag : List Char := ['j', 's', 'o', 'n']

/-- Lazy group of the leftmost fenced-block match: after the leftmost opening
fence, drop the optional tag and any whitespace, and take everything up to
the next closing fence.  Mirrors Python `re.search` leftmost-match semantics:
when no closing fence follows the leftmost opening fence (after the consumed
tag and whitespace, neither of which can contain a backtick) no later start
can complete a match either, so the whole search fails. -/
def findFenced (l : List Char) : Option (List Char) :=
  (splitAtFence l).bind fun after =>
    let after2 := if after.take 4 = jsonTag then after.drop 4 else after
    takeUntilFence (after2.dropWhile pySpace)

/-- Whole-match of the greedy first-brace-to-last-brace pattern: the span from
the first opening brace to the last closing brace, provided the latter comes
after the former. -/
def braceSpan (l : List Char) : Option (List Char) :=
  match l.findIdx? (fun c => c = obrace), l.reverse.findIdx? (fun c => c = cbrace) with
  | some i, some jr =>
    let j := l.length - 1 - jr
    if i < j then some ((l.drop i).take (j - i + 1)) else none
  | _, _ => none

/-- The `ValueError` message: the fixed prefix, the first 500 characters of
the offending text, and a trailing ellipsis. -/
def errExcerpt (text : List Char) : List Char :=
  ("Could not parse JSON from response: ").data ++ text.take 500 ++ ("...").data

namespace ImportAgent

/-- Embedding of `extract_json_from_response` from src/agents/import_agent.py:
direct parse, then the fenced-block group, then the brace span, first success
winning; when all fail, the error carries a 500-character excerpt. -/
def extract_json_from_response {D : Type} (J : List Char → Option D)
    (text : List Char) : Except (List Char) D :=
  match J text with
  | some d => Except.ok d
  | none =>
    match findFenced text with
    | some interior =>
      match J interior with
      | some d => Except.ok d
      | none =>
        match braceSpan text with
        | some s =>
          match J s with
          | some d => Except.ok d
          | none => Except.error (errExcerpt text)
        | none => Except.error (errExcerpt text)
    | none =>
      match braceSpan text with
      | some s =>
        match J s with
        | some d => Except.ok d
        | none => Except.error (errExcerpt text)
      | none => Except.error (errExcerpt text)

end ImportAgent

namespace RunwayAgent

/-- Embedding of `extract_json_from_response` from src/agents/runway_agent.py
(the Python body is character-identical to the import agent's). -/
def extract_json_from_response {D : Type} (J : List Char → Option D)
    (text : List Char) : Except (List Char) D :=
  match J text with
  | some d => Except.ok d
  | none =>
    match findFenced text with
    | some interior =>
      match J interior with
      | some d => Except.ok d
      | none =>
        match braceSpan text with
        | some s =>
          match J s with
          | some d => Except.ok d
          | none => Except.error (errExcerpt text)
        | none => Except.error (errExcerpt text)
    | none =>
      match braceSpan text with
      | some s =>
        match J s with
        | some d => Except.ok d
        | none => Except.error (errExcerpt text)
      | none => Except.error (errExcerpt text)

end RunwayAgent

/-- C3: the recovery cascade tries the strategies in order with first success
winning, so whenever the direct parse fails but the fenced-block group
parses, both agents' recovery returns exactly the parse of the fenced
interior — regardless of any braces in the surrounding prose, since the
brace-span strategy is never reached. -/
theorem extract_json_fenced_recovery {D : Type} (J : List Char → Option D)
    (text interior : List Char) (d : D)
    (h1 : J text = none) (h2 : findFenced text = some interior)
    (h3 : J interior = some d) :
    ImportAgent.extract_json_from_response J text = Except.ok d ∧
    RunwayAgent.extract_json_from_response J text = Except.ok d := by
  constructor
  · unfold ImportAgent.extract_json_from_response
    simp only [h1, h2, h3]
  · unfold RunwayAgent.extract_json_from_response
    simp only [h1, h2, h3]

theorem extract_json_fenced_recovery_witness :
    (fun s => if s = ("X").data then some 7 else none)
        (("pre \x7b ```json\nX``` post \x7d").data) = (none : Option ℕ) ∧
    findFenced (("pre \x7b ```json\nX``` post \x7d").data) = some (("X").data) ∧
    ImportAgent.extract_json_from_response
      (fun s => if s = ("X").data then some (7 : ℕ) else none)
      (("pre \x7b ```json\nX``` post \x7d").data) = Except.ok 7 := by
  refine ⟨by rfl, by rfl, ?_⟩
  exact (extract_json_fenced_recovery (fun s => if s = ("X").data then some 7 else none)
    (("pre \x7b ```json\nX``` post \x7d").data) (("X").data) 7 rfl rfl rfl).1

/-- C10: the two agents' `extract_json_from_response` definitions are
extensionally equal: on every input they return the same mapping or the same
truncated-excerpt error. -/
theorem extract_json_from_response_agents_agree {D : Type} (J : List Char → Option D)
    (text : List Char) :
    ImportAgent.extract_json_from_response J text =
      RunwayAgent.extract_json_from_response J text := rfl

/-! ## CSV text extraction (src/agents/import_agent.py)

`extract_text_from_csv` loops over the candidate encodings; per encoding the
external `pd.read_csv` call is abstracted as a `PdOutcome`-valued parameter
(`unicodeError` for `UnicodeDecodeError`, `structuralError` for any other
exception) and raw `bytes.decode(encoding)` as an `Option`-valued parameter
(`none` for `UnicodeDecodeError`).  The final `decode('utf-8',
errors='ignore')` never raises and is a plain parameter.  The embedding
returns a plain value — no exception escapes the Python function, which is
exactly the safety property claimed. -/

/-- The candidate encodings, in the order the source tries them. -/
inductive Encoding where
  | utf8 : Encoding
  | latin1 : Encoding
  | cp1252 : Encoding
deriving DecidableEq

/-- Outcome of the `pd.read_csv` attempt under one encoding. -/
inductive PdOutcome where
  | ok (s : List Char) : PdOutcome
  | unicodeError : PdOutcome
  | structuralError : PdOutcome
deriving DecidableEq

/-- The ordered encoding list `['utf-8', 'latin1', 'cp1252']`. -/
def csvEncodings : List Encoding := [Encoding.utf8, Encoding.latin1, Encoding.cp1252]

/-- The `for encoding in [...]` loop body: structured parse, then raw decode
under the same encoding on structural failure, else continue. -/
def csvLoop (pd : Encoding → PdOutcome) (dec : Encoding → Option (List Char)) :
    List Encoding → Option (List Char)
  | [] => none
  | e :: rest =>
    match pd e with
    | PdOutcome.ok s => some s
    | PdOutcome.unicodeError => csvLoop pd dec rest
    | PdOutcome.structuralError =>
      match dec e with
      | some t => some t
      | none => csvLoop pd dec rest

/-- Embedding of `extract_text_from_csv`: the encoding loop, then the
best-effort ignore-errors decode. -/
def extract_text_from_csv (pd : Encoding → PdOutcome) (dec : Encoding → Option (List Char))
    (decodeIgnore : List Char) : List Char :=
  (csvLoop pd dec csvEncodings).getD decodeIgnore

/-- One encoding makes no progress: pandas hits a decoding error, or it hits
a structural error and the raw decode also fails. -/
def encFails (pd : Encoding → PdOutcome) (dec : Encoding → Option (List Char))
    (e : Encoding) : Prop :=
  pd e = PdOutcome.unicodeError ∨ (pd e = PdOutcome.structuralError ∧ dec e = none)

theorem csvLoop_skip (pd : Encoding → PdOutcome) (dec : Encoding → Option (List Char))
    (e : Encoding) (rest : List Encoding) (h : encFails pd dec e) :
    csvLoop pd dec (e :: rest) = csvLoop pd dec rest := by
  rcases h with h | ⟨h, hd⟩
  · simp [csvLoop, h]
  · simp [csvLoop, h, hd]

/-- C8: the CSV extractor is a total cascade.  In encoding order UTF-8,
Latin-1, Windows-1252: a successful structured parse under an encoding wins;
a structural (non-decoding) failure falls back to the raw text decoded under
that same encoding; an encoding that fails to decode is skipped; and when
every encoding fails to decode, the result is the best-effort
invalid-byte-substituting decode — the function always returns a value and
never propagates an exception. -/
theorem extract_text_from_csv_cascade (pd : Encoding → PdOutcome)
    (dec : Encoding → Option (List Char)) (decodeIgnore : List Char) :
    (∀ s, pd Encoding.utf8 = PdOutcome.ok s →
      extract_text_from_csv pd dec decodeIgnore = s) ∧
    (∀ t, pd Encoding.utf8 = PdOutcome.structuralError → dec Encoding.utf8 = some t →
      extract_text_from_csv pd dec decodeIgnore = t) ∧
    (encFails pd dec Encoding.utf8 → ∀ s, pd Encoding.latin1 = PdOutcome.ok s →
      extract_text_from_csv pd dec decodeIgnore = s) ∧
    (encFails pd dec Encoding.utf8 → ∀ t, pd Encoding.latin1 = PdOutcome.structuralError →
      dec Encoding.latin1 = some t → extract_text_from_csv pd dec decodeIgnore = t) ∧
    (encFails pd dec Encoding.utf8 → encFails pd dec Encoding.latin1 →
      ∀ s, pd Encoding.cp1252 = PdOutcome.ok s →
      extract_text_from_csv pd dec decodeIgnore = s) ∧
    (encFails pd dec Encoding.utf8 → encFails pd dec Encoding.latin1 →
      ∀ t, pd Encoding.cp1252 = PdOutcome.structuralError → dec Encoding.cp1252 = some t →
      extract_text_from_csv pd dec decodeIgnore = t) ∧
    ((∀ e, encFails pd dec e) → extract_text_from_csv pd dec decodeIgnore = decodeIgnore) := by
  refine ⟨?_, ?_, ?_, ?_, ?_, ?_, ?_⟩
  · intro s h
    simp [extract_text_from_csv, csvEncodings, csvLoop, h]
  · intro t h hd
    simp [extract_text_from_csv, csvEncodings, csvLoop, h, hd]
  · intro h1 s h
    have e1 : csvLoop pd dec csvEncodings = csvLoop pd dec [Encoding.latin1, Encoding.cp1252] :=
      csvLoop_skip pd dec Encoding.utf8 [Encoding.latin1, Encoding.cp1252] h1
    unfold extract_text_from_csv
    rw [e1]
    simp [csvLoop, h]
  · intro h1 t h hd
    have e1 : csvLoop pd dec csvEncodings = csvLoop pd dec [Encoding.latin1, Encoding.cp1252] :=
      csvLoop_skip pd dec Encoding.utf8 [Encoding.latin1, Encoding.cp1252] h1
    unfold extract_text_from_csv
    rw [e1]
    simp [csvLoop, h, hd]
  · intro h1 h2 s h
    have e1 : csvLoop pd dec csvEncodings = csvLoop pd dec [Encoding.latin1, Encoding.cp1252] :=
      csvLoop_skip pd dec Encoding.utf8 [Encoding.latin1, Encoding.cp1252] h1
    have e2 : csvLoop pd dec [Encoding.latin1, Encoding.cp1252] =
        csvLoop pd dec [Encoding.cp1252] :=
      csvLoop_skip pd dec Encoding.latin1 [Encoding.cp1252] h2
    unfold extract_text_from_csv
    rw [e1, e2]
    simp [csvLoop, h]
  · intro h1 h2 t h hd
    have e1 : csvLoop pd dec csvEncodings = csvLoop pd dec [Encoding.latin1, Encoding.cp1252] :=
      csvLoop_skip pd dec Encoding.utf8 [Encoding.latin1, Encoding.cp1252] h1
    have e2 : csvLoop pd dec [Encoding.latin1, Encoding.cp1252] =
        csvLoop pd dec [Encoding.cp1252] :=
      csvLoop_skip pd dec Encoding.latin1 [Encoding.cp1252] h2
    unfold extract_text_from_csv
    rw [e1, e2]
    simp [csvLoop, h, hd]
  · intro hall
    have e1 : csvLoop pd dec csvEncodings = csvLoop pd dec [Encoding.latin1, Encoding.cp1252] :=
      csvLoop_skip pd dec Encoding.utf8 [Encoding.latin1, Encoding.cp1252] (hall Encoding.utf8)
    have e2 : csvLoop pd dec [Encoding.latin1, Encoding.cp1252] =
        csvLoop pd dec [Encoding.cp1252] :=
      csvLoop_skip pd dec Encoding.latin1 [Encoding.cp1252] (hall Encoding.latin1)
    have e3 : csvLoop pd dec [Encoding.cp1252] = csvLoop pd dec [] :=
      csvLoop_skip pd dec Encoding.cp1252 [] (hall Encoding.cp1252)
    unfold extract_text_from_csv
    rw [e1, e2, e3]
    simp [csvLoop]

theorem extract_text_from_csv_cascade_witness :
    extract_text_from_csv (fun _ => PdOutcome.structuralError)
      (fun _ => some (("raw").data)) [] = ("raw").data :=
  (extract_text_from_csv_cascade (fun _ => PdOutcome.structuralError)
    (fun _ => some (("raw").data)) []).2.1 (("raw").data) rfl rfl

/-! ## Import analysis (src/agents/import_agent.py, `analyze_import`)

The embedding starts where the document text is available (the upstream
`extract_text` stage performs external I/O and is out of scope of the claims
below).  Everything between the length checks — the LLM call, the JSON
recovery of its output and the pydantic validation into typed records — is
one abstracted fallible step `step`; its `Except.error` case models any
exception caught by the final handler. -/

/-- Python `str.strip()`: drop whitespace from both ends. -/
def pyStrip (l : List Char) : List Char :=
  ((l.dropWhile pySpace).reverse.dropWhile pySpace).reverse

/-- The asset `type` literal from src/schemas/import_schema.py. -/
inductive AssetType where
  | stock | etf | bond | crypto | cash | deposit | real_estate | other
deriving DecidableEq

/-- `ExtractedAsset` from src/schemas/import_schema.py. -/
structure ExtractedAsset where
  name : List Char
  type : AssetType
  ticker : Option (List Char)
  shares : ℚ
  currency : List Char
  market : Option (List Char)
  current_price : Option ℚ
  total_value : Option ℚ
  confidence : ℚ

/-- `SourceInfo` from src/schemas/import_schema.py. -/
structure SourceInfo where
  broker : Option (List Char) := none
  statement_date : Option (List Char) := none
  account_type : Option (List Char) := none

/-- `ImportResponse` from src/schemas/import_schema.py. -/
structure ImportResponse where
  assets : List ExtractedAsset
  source_info : SourceInfo
  warnings : List (List Char)
  confidence : ℚ

/-- The fields the LLM/recovery/validation step delivers on success (the
parsed dict after the `.get` defaults and schema validation). -/
structure ParsedImport where
  assets : List ExtractedAsset
  source_info : SourceInfo
  warnings : List (List Char)
  confidence : ℚ

/-- The single warning of the empty-document short circuit. -/
def emptyDocWarning : List Char :=
  ("Document appears to be empty or contains very little text").data

/-- The fixed truncation warning. -/
def truncatedWarning : List Char :=
  ("Document was truncated due to size. Some assets may be missing.").data

/-- Embedding of `analyze_import` from the point where `document_text` is in
hand: the empty-document short circuit, the 15,000-character truncation, the
abstracted LLM step, the catch-all error response, and the post-construction
truncation downgrade. -/
def analyze_import (step : List Char → Except (List Char) ParsedImport)
    (document_text : List Char) : ImportResponse :=
  if document_text = [] ∨ (pyStrip document_text).length < 50 then
    { assets := [], source_info := {}, warnings := [emptyDocWarning], confidence := 0 }
  else
    match step (if 15000 < document_text.length then document_text.take 15000
        else document_text) with
    | Except.error e =>
      { assets := [], source_info := {},
        warnings := [("Analysis failed: ").data ++ e], confidence := 0 }
    | Except.ok p =>
      let response : ImportResponse :=
        { assets := p.assets, source_info := p.source_info, warnings := p.warnings,
          confidence := p.confidence }
      if 15000 < document_text.length then
        { response with
          warnings := response.warnings ++ [truncatedWarning]
          confidence := min response.confidence 0.7 }
      else response

/-- C4: under 50 characters of stripped text, the analysis short-circuits to
zero holdings, an empty `SourceInfo`, exactly one warning and confidence 0 —
and the result does not depend on `step`, i.e. no recovery or LLM work is
attempted. -/
theorem analyze_import_short_circuit (step : List Char → Except (List Char) ParsedImport)
    (document_text : List Char) (h : (pyStrip document_text).length < 50) :
    analyze_import step document_text =
      { assets := [], source_info := {}, warnings := [emptyDocWarning],
        confidence := 0 } := by
  unfold analyze_import
  rw [if_pos (Or.inr h)]

theorem analyze_import_short_circuit_witness :
    (pyStrip (("hi").data)).length < 50 ∧
    analyze_import (fun _ => Except.error []) (("hi").data) =
      { assets := [], source_info := {}, warnings := [emptyDocWarning],
        confidence := 0 } :=
  ⟨by decide, analyze_import_short_circuit (fun _ => Except.error []) (("hi").data)
    (by decide)⟩

/-- C5: when the document exceeds 15,000 characters, the step receives only
the first 15,000 characters, the fixed truncation warning is appended to the
reported warnings, and the confidence becomes `min reported 0.7` — never
above the reported confidence, and never above 0.7. -/
theorem analyze_import_truncation (step : List Char → Except (List Char) ParsedImport)
    (document_text : List Char) (p : ParsedImport)
    (h50 : 50 ≤ (pyStrip document_text).length)
    (hlen : 15000 < document_text.length)
    (hstep : step (document_text.take 15000) = Except.ok p) :
    analyze_import step document_text =
      { assets := p.assets, source_info := p.source_info,
        warnings := p.warnings ++ [truncatedWarning],
        confidence := min p.confidence 0.7 } ∧
    min p.confidence 0.7 ≤ p.confidence ∧ min p.confidence 0.7 ≤ 0.7 := by
  have hne : ¬(document_text = [] ∨ (pyStrip document_text).length < 50) := by
    push_neg
    refine ⟨?_, not_lt.mp (not_lt.mpr h50)⟩
    rintro rfl
    simp [pyStrip] at h50
  refine ⟨?_, min_le_left _ _, min_le_right _ _⟩
  unfold analyze_import
  rw [if_neg hne, if_pos hlen, hstep]
  simp only [if_pos hlen]

theorem analyze_import_truncation_witness :
    50 ≤ (pyStrip (List.replicate 15001 'a')).length ∧
    15000 < (List.replicate 15001 'a').length ∧
    analyze_import (fun _ => Except.ok ⟨[], {}, [], 1⟩) (List.replicate 15001 'a') =
      { assets := [], source_info := {}, warnings := [] ++ [truncatedWarning],
        confidence := min 1 0.7 } := by
  have hd : ∀ n : ℕ, (List.replicate n 'a').dropWhile pySpace = List.replicate n 'a' := by
    intro n
    cases n with
    | zero => rfl
    | succ m =>
      have hs : pySpace 'a' = false := by decide
      simp [List.replicate_succ, List.dropWhile_cons, hs]
  have hstrip : pyStrip (List.replicate 15001 'a') = List.replicate 15001 'a' := by
    unfold pyStrip
    rw [hd, List.reverse_replicate, hd, List.reverse_replicate]
  have h50 : 50 ≤ (pyStrip (List.replicate 15001 'a')).length := by
    rw [hstrip, List.length_replicate]
    norm_num
  have hlen : 15000 < (List.replicate 15001 'a').length := by
    rw [List.length_replicate]
    norm_num
  exact ⟨h50, hlen,
    (analyze_import_truncation (fun _ => Except.ok ⟨[], {}, [], 1⟩)
      (List.replicate 15001 'a') ⟨[], {}, [], 1⟩ h50 hlen rfl).1⟩

/-! ## Inflation resolver (src/tools/inflation.py) -/

/-- One row of the `hints` table (the `instruction` key is added at return
time, so it is not part of the row). -/
structure InflationHint where
  country : List Char
  typical_range : List Char
  central_bank_target : List Char
  note : List Char
deriving DecidableEq

/-- The result dict of `get_inflation_rate`; the unknown-region branch omits
the `central_bank_target` and `note` keys, hence the options. -/
structure InflationInfo where
  country : List Char
  typical_range : List Char
  central_bank_target : Option (List Char)
  note : Option (List Char)
  instruction : List Char
deriving DecidableEq

/-- The `hints` lookup table from src/tools/inflation.py. -/
def inflationHints : List (List Char × InflationHint) :=
  [(("US").data, ⟨("United States").data, ("2-4%").data, ("2%").data,
      ("Consider recent CPI data and Fed policy").data⟩),
   (("UK").data, ⟨("United Kingdom").data, ("2-4%").data, ("2%").data,
      ("Consider Bank of England policy").data⟩),
   (("EU").data, ⟨("European Union").data, ("2-3%").data, ("2%").data,
      ("Consider ECB policy").data⟩),
   (("JP").data, ⟨("Japan").data, ("0-2%").data, ("2%").data,
      ("Historically low inflation").data⟩)]

/-- The instruction string for a known region. -/
def knownInstruction : List Char :=
  ("Use your knowledge of current economic conditions to determine the appropriate inflation rate").data

/-- The instruction string for an unknown region. -/
def unknownInstruction : List Char :=
  ("Use your knowledge of current economic conditions for this country").data

/-- Embedding of `get_inflation_rate` from src/tools/inflation.py: uppercase
the country code, look it up in the table, and otherwise fall back to the
fixed default with `typical_range` `2-4%`.  (`Char.toUpper` models Python
`str.upper()` on the relevant ASCII codes.) -/
def get_inflation_rate (country : List Char) : InflationInfo :=
  match inflationHints.lookup (country.map Char.toUpper) with
  | some h =>
    { country := h.country, typical_range := h.typical_range,
      central_bank_target := some h.central_bank_target, note := some h.note,
      instruction := knownInstruction }
  | none =>
    { country := country, typical_range := ("2-4%").data,
      central_bank_target := none, note := none, instruction := unknownInstruction }

/-- C9 counterexample: for an unknown region the resolver's fallback
`typical_range` is `2-4%`, which is not the `3.5-4%` the claim states. -/
theorem get_inflation_rate_default_counterexample :
    (get_inflation_rate (("ZZ").data)).typical_range = ("2-4%").data ∧
    ("2-4%").data ≠ ("3.5-4%").data := by
  exact ⟨rfl, by decide⟩

/-- C9 (amended): the resolver is total — a known region code returns that
region's table row (typical range and central-bank point target) plus the
fixed instruction, and an unknown region falls back to the fixed default
range `2-4%`; no input produces an error. -/
theorem get_inflation_rate_total (country : List Char) :
    (∀ h, inflationHints.lookup (country.map Char.toUpper) = some h →
      get_inflation_rate country =
        { country := h.country, typical_range := h.typical_range,
          central_bank_target := some h.central_bank_target, note := some h.note,
          instruction := knownInstruction }) ∧
    (inflationHints.lookup (country.map Char.toUpper) = none →
      get_inflation_rate country =
        { country := country, typical_range := ("2-4%").data,
          central_bank_target := none, note := none,
          instruction := unknownInstruction }) := by
  constructor
  · intro h hh
    unfold get_inflation_rate
    rw [hh]
  · intro hh
    unfold get_inflation_rate
    rw [hh]

theorem get_inflation_rate_total_witness :
    inflationHints.lookup ((("us").data).map Char.toUpper) =
      some ⟨("United States").data, ("2-4%").data, ("2%").data,
        ("Consider recent CPI data and Fed policy").data⟩ ∧
    get_inflation_rate (("us").data) =
      { country := ("United States").data, typical_range := ("2-4%").data,
        central_bank_target := some (("2%").data),
        note := some (("Consider recent CPI data and Fed policy").data),
        instruction := knownInstruction } :=
  ⟨rfl, (get_inflation_rate_total (("us").data)).1
    ⟨("United States").data, ("2-4%").data, ("2%").data,
      ("Consider recent CPI data and Fed policy").data⟩ rfl⟩

/-! ## Runway simulator (spec §4.6)

The repository contains no deterministic implementation of the year-by-year
depletion loop: src/agents/runway_agent.py delegates the arithmetic to the
language model through `RUNWAY_SYSTEM_PROMPT` and `calculate_runway` only
formats the request and parses the reply.  The simulator below is therefore
modelled from the specification's state machine (§4.6) and data model (§3). -/

/-- Modelled from the spec: a debt in the projection input — current
balance, annual interest rate, monthly payment (§3). -/
structure SimDebt where
  current_balance : ℚ
  interest_rate : ℚ
  monthly_payment : ℚ

/-- Modelled from the spec: the simulator state — the liquid asset buckets
listed in the fixed withdrawal order (cash, deposit, bond, stock/etf), the
never-withdrawn real-estate balance, and the active debts (§4.6). -/
structure SimState where
  buckets : List ℚ
  real_estate : ℚ
  debts : List SimDebt

/-- Modelled from the spec: draw an amount from the ordered buckets,
exhausting each bucket before touching the next and never letting a balance
go negative (§4.6 step 2, §8 non-negativity). -/
def withdrawList (amt : ℚ) : List ℚ → List ℚ
  | [] => []
  | b :: rest => max 0 (b - amt) :: withdrawList (max 0 (amt - b)) rest

/-- Modelled from the spec: yearly debt payments, counting only debts with
a positive remaining balance — a debt that reached 0 stops contributing to
the annual gap (§4.6 steps 1 and 4). -/
def debtPayments (debts : List SimDebt) : ℚ :=
  ((debts.filter (fun d => 0 < d.current_balance)).map (fun d => d.monthly_payment)).sum

/-- Modelled from the spec: one year of debt paydown —
`principalPaid = monthlyPayment×12 − currentBalance×interestRate`, with the
balance clamped at 0 (§4.6 step 4). -/
def stepDebt (d : SimDebt) : SimDebt :=
  { d with
    current_balance :=
      max 0 (d.current_balance - (12 * d.monthly_payment - d.current_balance * d.interest_rate)) }

/-- Modelled from the spec: the liquid pool is the sum of the withdrawable
buckets (total assets minus real estate, glossary). -/
def liquid (st : SimState) : ℚ := st.buckets.sum

/-- Modelled from the spec: the per-year transition (§4.6) —
`annualGap = livingExpenses·(1+inflation)^year + Σ(12·monthlyPayment) −
passiveIncome`; a positive gap is withdrawn from the ordered buckets; each
remaining bucket then grows by its resolved rate (the rate list is aligned
with the bucket list); debts advance one year. -/
def runYear (inflation expenses income : ℚ) (rates : List ℚ) (reRate : ℚ)
    (year : ℕ) (st : SimState) : SimState :=
  let gap := expenses * (1 + inflation) ^ year + 12 * debtPayments st.debts - income
  let buckets1 := if 0 < gap then withdrawList gap st.buckets else st.buckets
  { buckets := List.zipWith (fun b r => b * (1 + r)) buckets1 rates
    real_estate := st.real_estate * (1 + reRate)
    debts := st.debts.map stepDebt }

/-- Modelled from the spec: the runway verdict enum (§3). -/
inductive RunwayStatus where
  | infinite : RunwayStatus
  | finite : RunwayStatus
  | critical : RunwayStatus
deriving DecidableEq

/-- Modelled from the spec: the simulation loop over years — liquid assets
≤ 0 at the end of a year terminates with that year (critical when the year
is below 10, finite otherwise), and surviving the 50-year horizon reports
the horizon cap with status infinite (§4.6 termination). -/
def runwayLoop (inflation expenses income : ℚ) (rates : List ℚ) (reRate : ℚ) :
    ℕ → ℕ → SimState → ℕ × RunwayStatus
  | 0, _, _ => (50, RunwayStatus.infinite)
  | fuel + 1, year, st =>
    let st' := runYear inflation expenses income rates reRate year st
    if liquid st' ≤ 0 then
      (year, if year < 10 then RunwayStatus.critical else RunwayStatus.finite)
    else
      runwayLoop inflation expenses income rates reRate fuel (year + 1) st'

/-- Modelled from the spec: the full simulation — 50 simulated years
starting at year 1 from the year-0 snapshot (§4.6). -/
def runwaySimulator (inflation expenses income : ℚ) (rates : List ℚ) (reRate : ℚ)
    (st0 : SimState) : ℕ × RunwayStatus :=
  runwayLoop inflation expenses income rates reRate 50 1 st0

theorem withdrawList_nonneg (amt : ℚ) (l : List ℚ) : ∀ b ∈ withdrawList amt l, 0 ≤ b := by
  induction l generalizing amt with
  | nil => simp [withdrawList]
  | cons b rest ih =>
    intro x hx
    simp only [withdrawList, List.mem_cons] at hx
    rcases hx with rfl | hx
    · exact le_max_left _ _
    · exact ih _ x hx

theorem withdrawList_length (amt : ℚ) (l : List ℚ) :
    (withdrawList amt l).length = l.length := by
  induction l generalizing amt with
  | nil => rfl
  | cons b rest ih => simp [withdrawList, ih]

theorem withdrawList_sum (amt : ℚ) (l : List ℚ) (hamt : 0 ≤ amt)
    (hl : ∀ b ∈ l, 0 ≤ b) : (withdrawList amt l).sum = max 0 (l.sum - amt) := by
  induction l generalizing amt with
  | nil =>
    simp only [withdrawList, List.sum_nil, zero_sub]
    rw [max_eq_left (by linarith)]
  | cons b rest ih =>
    have hb : 0 ≤ b := hl b (by simp)
    have hrest : ∀ x ∈ rest, 0 ≤ x := fun x hx => hl x (by simp [hx])
    have hsumrest : 0 ≤ rest.sum := List.sum_nonneg hrest
    simp only [withdrawList, List.sum_cons]
    rw [ih (max 0 (amt - b)) (le_max_left _ _) hrest]
    rcases le_total amt b with h | h
    · rw [max_eq_right (by linarith : (0:ℚ) ≤ b - amt),
        max_eq_left (by linarith : amt - b ≤ 0), sub_zero,
        max_eq_right hsumrest, max_eq_right (by linarith : (0:ℚ) ≤ b + rest.sum - amt)]
      ring
    · rw [max_eq_left (by linarith : b - amt ≤ 0),
        max_eq_right (by linarith : (0:ℚ) ≤ amt - b), zero_add]
      congr 1
      ring

theorem zipWith_growth_replicate_zero (l : List ℚ) (n : ℕ) (h : l.length ≤ n) :
    List.zipWith (fun b r => b * (1 + r)) l (List.replicate n 0) = l := by
  induction l generalizing n with
  | nil => simp
  | cons b rest ih =>
    cases n with
    | zero => simp at h
    | succ m =>
      have h' : rest.length ≤ m := by
        simp only [List.length_cons] at h
        omega
      simp only [List.replicate_succ, List.zipWith_cons_cons]
      rw [ih m h']
      norm_num

theorem runYear_gap_form (expenses income reRate : ℚ) (n year : ℕ) (st : SimState)
    (hdebts : st.debts = []) (hlen : st.buckets.length ≤ n) :
    runYear 0 expenses income (List.replicate n 0) reRate year st =
      { buckets := if 0 < expenses - income then withdrawList (expenses - income) st.buckets
          else st.buckets
        real_estate := st.real_estate * (1 + reRate)
        debts := [] } := by
  have hgap : expenses * (1 + 0) ^ year + 12 * debtPayments st.debts - income =
      expenses - income := by
    rw [hdebts]
    simp [debtPayments]
  unfold runYear
  rw [hgap, hdebts]
  by_cases h : 0 < expenses - income
  · simp only [if_pos h, List.map_nil]
    congr 1
    exact zipWith_growth_replicate_zero _ n (by rw [withdrawList_length]; exact hlen)
  · simp only [if_neg h, List.map_nil]
    congr 1
    exact zipWith_growth_replicate_zero _ n hlen

theorem runwayLoop_depleted (expenses income reRate : ℚ) (n : ℕ)
    (hGpos : 0 < expenses - income) :
    ∀ (fuel year : ℕ) (st : SimState),
      st.debts = [] → st.buckets.length ≤ n → (∀ b ∈ st.buckets, 0 ≤ b) →
      1 ≤ year → 0 < liquid st → ⌈liquid st / (expenses - income)⌉ ≤ fuel →
      runwayLoop 0 expenses income (List.replicate n 0) reRate fuel year st =
        (year - 1 + (⌈liquid st / (expenses - income)⌉).toNat,
         if year - 1 + (⌈liquid st / (expenses - income)⌉).toNat < 10 then
           RunwayStatus.critical
         else RunwayStatus.finite) := by
  intro fuel
  induction fuel with
  | zero =>
    intro year st _ _ _ _ hL hfuel
    exfalso
    have h1 : 0 < ⌈liquid st / (expenses - income)⌉ :=
      Int.ceil_pos.mpr (div_pos hL hGpos)
    omega
  | succ fuel ih =>
    intro year st hdebts hlen hnn hyear hL hfuel
    have hstep := runYear_gap_form expenses income reRate n year st hdebts hlen
    rw [if_pos hGpos] at hstep
    have hliq : liquid (runYear 0 expenses income (List.replicate n 0) reRate year st) =
        max 0 (liquid st - (expenses - income)) := by
      rw [hstep]
      exact withdrawList_sum _ _ hGpos.le hnn
    simp only [runwayLoop]
    rcases le_or_lt (liquid st) (expenses - income) with hcase | hcase
    · have hz : liquid (runYear 0 expenses income (List.replicate n 0) reRate year st) ≤ 0 := by
        rw [hliq, max_eq_left (by linarith)]
      rw [if_pos hz]
      have hc : ⌈liquid st / (expenses - income)⌉ = 1 := by
        rw [Int.ceil_eq_iff]
        push_cast
        constructor
        · have := div_pos hL hGpos
          linarith
        · exact (div_le_one hGpos).mpr hcase
      rw [hc]
      have hy : year - 1 + (1 : ℤ).toNat = year := by
        simp only [Int.toNat_one]
        omega
      rw [hy]
    · have hliq' : liquid (runYear 0 expenses income (List.replicate n 0) reRate year st) =
          liquid st - (expenses - income) := by
        rw [hliq, max_eq_right (by linarith)]
      have hz : ¬(liquid (runYear 0 expenses income (List.replicate n 0) reRate year st) ≤ 0) := by
        rw [hliq']
        exact not_le.mpr (by linarith)
      rw [if_neg hz]
      have hdebts' : (runYear 0 expenses income (List.replicate n 0) reRate year st).debts =
          [] := by
        rw [hstep]
      have hlen' : (runYear 0 expenses income (List.replicate n 0) reRate year st).buckets.length
          ≤ n := by
        rw [hstep]
        show (withdrawList (expenses - income) st.buckets).length ≤ n
        rw [withdrawList_length]
        exact hlen
      have hnn' : ∀ b ∈ (runYear 0 expenses income (List.replicate n 0) reRate year st).buckets,
          0 ≤ b := by
        rw [hstep]
        exact withdrawList_nonneg _ _
      have hL' : 0 < liquid (runYear 0 expenses income (List.replicate n 0) reRate year st) := by
        rw [hliq']
        linarith
      have hceil : ⌈liquid (runYear 0 expenses income (List.replicate n 0) reRate year st) /
          (expenses - income)⌉ = ⌈liquid st / (expenses - income)⌉ - 1 := by
        rw [hliq', sub_div, div_self hGpos.ne', Int.ceil_sub_one]
      have hc1 : 1 ≤ ⌈liquid st / (expenses - income)⌉ :=
        Int.ceil_pos.mpr (div_pos hL hGpos)
      have hfuel' : ⌈liquid (runYear 0 expenses income (List.replicate n 0) reRate year st) /
          (expenses - income)⌉ ≤ fuel := by
        rw [hceil]
        omega
      have happ := ih (year + 1) _ hdebts' hlen' hnn' (by omega) hL' hfuel'
      rw [happ, hceil]
      have hy : year + 1 - 1 + (⌈liquid st / (expenses - income)⌉ - 1).toNat =
          year - 1 + (⌈liquid st / (expenses - income)⌉).toNat := by omega
      rw [hy]

theorem runwayLoop_infinite (expenses income reRate : ℚ) (n : ℕ)
    (hG : expenses - income = 0) :
    ∀ (fuel year : ℕ) (st : SimState),
      st.debts = [] → st.buckets.length ≤ n → 0 < liquid st →
      runwayLoop 0 expenses income (List.replicate n 0) reRate fuel year st =
        (50, RunwayStatus.infinite) := by
  intro fuel
  induction fuel with
  | zero =>
    intro year st _ _ _
    rfl
  | succ fuel ih =>
    intro year st hdebts hlen hL
    have hstep := runYear_gap_form expenses income reRate n year st hdebts hlen
    rw [if_neg (by rw [hG]; exact lt_irrefl 0)] at hstep
    have hliq : liquid (runYear 0 expenses income (List.replicate n 0) reRate year st) =
        liquid st := by
      rw [hstep]
      rfl
    simp only [runwayLoop]
    rw [if_neg (by rw [hliq]; exact not_le.mpr hL)]
    exact ih (year + 1) _ (by rw [hstep]) (by rw [hstep]; exact hlen) (by rw [hliq]; exact hL)

/-- C6 (modelled from the spec, §4.6): with zero debts, zero asset growth and
zero inflation the yearly gap is the constant `G = expenses − income`.  When
`G > 0` (and the depletion time fits the 50-year horizon), the liquid pool
`L` is exhausted exactly at year `⌈L/G⌉`, reported with status critical when
that year is below 10 and finite otherwise; when `G = 0` the simulation
survives all 50 years and reports the horizon cap with status infinite. -/
theorem runwaySimulator_constant_gap (expenses income reRate : ℚ) (n : ℕ) (st0 : SimState)
    (hdebts : st0.debts = []) (hlen : st0.buckets.length ≤ n)
    (hnn : ∀ b ∈ st0.buckets, 0 ≤ b) (hL : 0 < liquid st0) :
    (0 < expenses - income → ⌈liquid st0 / (expenses - income)⌉ ≤ 50 →
      runwaySimulator 0 expenses income (List.replicate n 0) reRate st0 =
        ((⌈liquid st0 / (expenses - income)⌉).toNat,
         if (⌈liquid st0 / (expenses - income)⌉).toNat < 10 then RunwayStatus.critical
         else RunwayStatus.finite)) ∧
    (expenses - income = 0 →
      runwaySimulator 0 expenses income (List.replicate n 0) reRate st0 =
        (50, RunwayStatus.infinite)) := by
  constructor
  · intro hG hfit
    have h := runwayLoop_depleted expenses income reRate n hG 50 1 st0 hdebts hlen hnn
      (le_refl 1) hL hfit
    unfold runwaySimulator
    rw [h]
    norm_num
  · intro hG
    exact runwayLoop_infinite expenses income reRate n hG 50 1 st0 hdebts hlen hL

theorem runwaySimulator_constant_gap_witness :
    runwaySimulator 0 10 0 (List.replicate 4 0) 0
      { buckets := [30, 0, 0, 0], real_estate := 0, debts := [] } =
      (3, RunwayStatus.critical) := by
  have h := (runwaySimulator_constant_gap 10 0 0 4
    { buckets := [30, 0, 0, 0], real_estate := 0, debts := [] }
    rfl (by decide) (by decide) (by norm_num [liquid])).1 (by norm_num)
    (by norm_num [liquid])
  rw [h]
  norm_num [liquid]
  decide
